import Mathlib

/-!
# Verification of the weekly draft generator (min-football)

Shallow embedding of the draft-generation pipeline of this repository:
`rankGames`, `generateRecap`, `fetchGames`, `getStubGames`, `mapToSchema`,
`generateOpinions`, `generateWhatsNext` and the orchestrating `generateDraft`.
JavaScript values that may be `undefined`, `null` or a number are modelled by
the `JVal` type, with the coercions the code relies on (`x || 0`, `!== null`,
`=== 5`, `> 5`) made explicit.  The one random draw (the `why_it_mattered`
template index) is threaded as an explicit oracle argument.
-/

namespace MinFootball

/-- A JavaScript value that is `undefined`, `null`, or an (integer) number.
Used for the optional numeric fields of an upstream game payload. -/
inductive JVal where
  | undef : JVal
  | null : JVal
  | num : Int → JVal
deriving Repr, DecidableEq, Inhabited

/-- JS `v || 0`: `undefined` and `null` are falsy, a number `n` yields `n`
(`0 || 0` is `0`, so on integers this is the identity on numbers). -/
def JVal.orZero : JVal → Int
  | .num n => n
  | .undef => 0
  | .null => 0

/-- JS strict equality `v === k` against a number literal `k`. -/
def JVal.eqNum : JVal → Int → Bool
  | .num n, k => n == k
  | .undef, _ => false
  | .null, _ => false

/-- JS relational comparison `v > k` against a number literal `k`:
`undefined > k` is `false` (NaN), `null` coerces to `0`. -/
def JVal.gtNum : JVal → Int → Bool
  | .num n, k => n > k
  | .undef, _ => false
  | .null, k => (0 : Int) > k

/-- JS template-literal rendering `${v}` of a `JVal`. -/
def JVal.render : JVal → String
  | .num n => toString n
  | .undef => "undefined"
  | .null => "null"

/-- An upstream game payload as consumed by the generator
(fields `id`, `home_team`, `away_team`, `home_points`, `away_points`,
`completed`, `conference_game`, `periods`, `home_id`, `away_id`, `tags`;
a missing string/list field is `none`, a missing numeric field is
`JVal.undef`). -/
structure Game where
  id : Option String
  home_team : String
  away_team : String
  home_points : JVal
  away_points : JVal
  completed : Bool
  conference_game : Bool
  periods : JVal
  home_id : JVal
  away_id : JVal
  tags : Option (List String)
deriving Repr, DecidableEq, Inhabited

/-- A game annotated by the ranker with `_rankScore`, `_scoreDiff`,
`_totalPoints` and `_winner` (the in-place mutation of the JS code is
modelled by a wrapper record). -/
structure RankedGame where
  game : Game
  rankScore : Nat
  scoreDiff : Nat
  totalPoints : Int
  winner : String
deriving Repr, DecidableEq, Inhabited

/-- The filter step of `rankGames`:
`games.filter(g => g.completed && g.home_points !== null && g.away_points !== null)`.
Note this is a strict `!== null` test: an `undefined` score passes it. -/
def rankEligible (games : List Game) : List Game :=
  games.filter fun g =>
    g.completed && g.home_points != JVal.null && g.away_points != JVal.null

/-- The scoring body of `rankGames`: the derived fields, and the heuristic
`score`, whose eight `if (…) score += k` statements are written as the sum of
the eight conditional increments, in source order. -/
def annotateGame (g : Game) : RankedGame :=
  let homeScore := g.home_points.orZero
  let awayScore := g.away_points.orZero
  let scoreDiff := (homeScore - awayScore).natAbs
  let totalPoints := homeScore + awayScore
  { game := g
    rankScore :=
      (if scoreDiff ≤ 8 then 6 else 0) +
      (if scoreDiff ≤ 3 then 4 else 0) +
      (if scoreDiff = 0 then 3 else 0) +
      (if totalPoints > 70 then 3 else 0) +
      (if totalPoints > 80 then 2 else 0) +
      (if g.conference_game then 1 else 0) +
      (if g.periods.eqNum 5 then 4 else 0) +
      (if g.periods.gtNum 5 then 6 else 0)
    scoreDiff := scoreDiff
    totalPoints := totalPoints
    winner := if homeScore > awayScore then "home" else "away" }

/-- Stable descending insertion: `x` is placed before the first element whose
`rankScore` does not exceed `x`'s.  This realises the (ES2019-stable) JS
`sort((a, b) => b._rankScore - a._rankScore)`. -/
def insertDesc (x : RankedGame) : List RankedGame → List RankedGame
  | [] => [x]
  | y :: ys => if y.rankScore ≤ x.rankScore then x :: y :: ys else y :: insertDesc x ys

/-- Stable sort descending by `rankScore`. -/
def sortDesc : List RankedGame → List RankedGame
  | [] => []
  | x :: xs => insertDesc x (sortDesc xs)

/-- `rankGames`: filter to eligible games, annotate with score and derived
fields, stable-sort descending by score, keep the first 5. -/
def rankGames (games : List Game) : List RankedGame :=
  (sortDesc ((rankEligible games).map annotateGame)).take 5

/-- A ranked game further annotated by `generateRecap` with the three text
fields `recap_2s`, `one_stat`, `why_it_mattered`. -/
structure RecapGame where
  ranked : RankedGame
  recap_2s : String
  one_stat : String
  why_it_mattered : String
deriving Repr, DecidableEq, Inhabited

/-- `generateRecap`: template-based text generation.  The single call to
`Math.random()` (the choice among the three `whyOptions`) is passed in as the
explicit index `r`. -/
def generateRecap (g : RankedGame) (r : Fin 3) : RecapGame :=
  let game := g.game
  let scoreDiff := g.scoreDiff
  let totalPoints := g.totalPoints
  let winner := g.winner
  let wonTeam := if winner = "home" then game.home_team else game.away_team
  let lostTeam := if winner = "away" then game.home_team else game.away_team
  let isClose := scoreDiff ≤ 8
  let isShootout := totalPoints > 70
  let isOvertime := game.periods.gtNum 4
  let sentence1 :=
    if isOvertime then
      wonTeam ++ " survived " ++
        (if isShootout then "a back-and-forth shootout" else "a tight contest") ++
        " that required overtime to decide."
    else if isClose then
      if isShootout then
        "In a high-scoring affair, " ++ wonTeam ++ " edged " ++ lostTeam ++ " by " ++
          toString scoreDiff ++ " point" ++ (if scoreDiff ≠ 1 then "s" else "") ++ "."
      else
        wonTeam ++ " pulled out a narrow " ++ toString scoreDiff ++
          "-point victory over " ++ lostTeam ++ "."
    else
      wonTeam ++ " took control " ++
        (if isShootout then "in the shootout" else "early") ++
        " and maintained their lead throughout."
  let sentence2 :=
    if isShootout then
      "Both teams\x27 offenses moved the ball effectively, but " ++
        (if winner = "home" then wonTeam ++ " managed to get more stops"
         else lostTeam ++ " fell short on crucial drives") ++ "."
    else
      "The decisive moments came " ++
        (if isClose then "late in the game"
         else "when the winning team established momentum") ++ "."
  let one_stat :=
    if isOvertime then game.periods.render ++ " periods total"
    else if isShootout then "Combined " ++ toString totalPoints ++ " points"
    else if isClose then toString scoreDiff ++ "-point margin"
    else wonTeam ++ " won by " ++ toString scoreDiff
  let whyOptions : List String :=
    [ "Both teams showed resilience, but execution in key moments made the difference."
    , if isShootout then
        "The high-scoring affair showcased explosive offenses struggling to get defensive stops."
      else
        "Defensive discipline and limiting mistakes proved critical in the outcome."
    , if isClose then
        "A single big play or stop swung momentum in this tightly contested game."
      else
        "The winner established control and never let their opponent back in the game." ]
  { ranked := g
    recap_2s := sentence1 ++ " " ++ sentence2
    one_stat := one_stat
    why_it_mattered := whyOptions.getD r.val "" }

/-- Team metadata `{abbr, logo}` from the auxiliary lookup. -/
structure TeamMeta where
  abbr : String
  logo : String
deriving Repr, DecidableEq, Inhabited

/-- Published team block `{name, abbr, logo}`. -/
structure PublishedTeam where
  name : String
  abbr : String
  logo : String
deriving Repr, DecidableEq, Inhabited

/-- Published identifier block `{home_id, away_id, game_id}`. -/
structure PublishedIds where
  home_id : Int
  away_id : Int
  game_id : String
deriving Repr, DecidableEq, Inhabited

/-- The externally published per-game shape produced by `mapToSchema`. -/
structure PublishedGame where
  home : PublishedTeam
  away : PublishedTeam
  final : String
  recap_2s : String
  one_stat : String
  why_it_mattered : String
  tags : List String
  ids : PublishedIds
deriving Repr, DecidableEq, Inhabited

/-- `name.substring(0, 4).toUpperCase()`: the fallback team abbreviation —
the first 4 characters of the name, each uppercased. -/
def upper4 (s : String) : String := String.mk ((s.data.take 4).map Char.toUpper)

/-- JS `lookup[name]?.abbr || fallback` / `lookup[name]?.logo || fallback`:
a missing entry, or an entry whose field is the empty string (falsy), yields
the fallback. -/
def metaField (entry : Option TeamMeta) (field : TeamMeta → String)
    (fallback : String) : String :=
  match entry with
  | some t => if field t = "" then fallback else field t
  | none => fallback

/-- `mapToSchema`: project an enriched game plus the team-metadata lookup into
a `PublishedGame`.  The `final` field renders the raw `home_points` and
`away_points` joined by an en-dash. -/
def mapToSchema (g : RecapGame) (teamData : String → Option TeamMeta) :
    PublishedGame :=
  let game := g.ranked.game
  { home :=
      { name := game.home_team
        abbr := metaField (teamData game.home_team) TeamMeta.abbr (upper4 game.home_team)
        logo := metaField (teamData game.home_team) TeamMeta.logo "" }
    away :=
      { name := game.away_team
        abbr := metaField (teamData game.away_team) TeamMeta.abbr (upper4 game.away_team)
        logo := metaField (teamData game.away_team) TeamMeta.logo "" }
    final := game.home_points.render ++ "–" ++ game.away_points.render
    recap_2s := g.recap_2s
    one_stat := g.one_stat
    why_it_mattered := g.why_it_mattered
    tags := game.tags.getD []
    ids :=
      { home_id := game.home_id.orZero
        away_id := game.away_id.orZero
        game_id := game.id.getD "" } }

/-- The outcome of the upstream fetch attempt: the credential may be absent,
the transport (or JSON decoding) may fail, the API may answer non-OK, or a
payload list is obtained. -/
inductive FetchOutcome where
  | noApiKey : FetchOutcome
  | transportError : FetchOutcome
  | httpNotOk : Nat → FetchOutcome
  | ok : List Game → FetchOutcome
deriving Repr, DecidableEq, Inhabited

/-- Whether the fetch attempt failed (every case except `ok`). -/
def FetchOutcome.isFailure : FetchOutcome → Bool
  | .ok _ => false
  | _ => true

/-- `getStubGames`: the fixed single-record stub dataset. -/
def getStubGames : List Game :=
  [ { id := some "2025-08-30-278-290"
      home_team := "Fresno State"
      away_team := "Georgia Southern"
      home_points := JVal.num 28
      away_points := JVal.num 24
      completed := true
      conference_game := false
      periods := JVal.undef
      home_id := JVal.undef
      away_id := JVal.undef
      tags := none } ]

/-- `fetchGames`: no API key, a thrown transport error, or a non-OK response
all fall back to the stub dataset; a successful fetch returns its payloads. -/
def fetchGames : FetchOutcome → List Game
  | .noApiKey => getStubGames
  | .transportError => getStubGames
  | .httpNotOk _ => getStubGames
  | .ok games => games

/-- `generateOpinions`: a fixed list of four commentary strings (the ranked
games argument is ignored). -/
def generateOpinions (_ranked : List RankedGame) : List String :=
  [ "Defensive coordinators are winning the early-season chess matches with aggressive third-down schemes."
  , "Quarterback efficiency on first and second down remains the strongest predictor of offensive success."
  , "Red-zone execution separated close games this week; teams that settled for field goals early paid the price later."
  , "Turnover margin continues to be the most reliable indicator of game outcomes, with a +2 swing worth roughly 10 points." ]

/-- One upcoming-matchup entry `{when, match, hook}` (the `match` field is
named `matchup` here, `match` being a Lean keyword). -/
structure Matchup where
  when : String
  matchup : String
  hook : String
deriving Repr, DecidableEq, Inhabited

/-- `generateWhatsNext`: a fixed two-entry list (the week argument is
ignored). -/
def generateWhatsNext (_week : Int) : List Matchup :=
  [ { when := "Fri", matchup := "TBD", hook := "Friday night spotlight" }
  , { when := "Sat", matchup := "TBD", hook := "Weekend showcase" } ]

/-- The `meta` block of the draft document. -/
structure DraftMeta where
  season : Int
  week : Int
  scope : String
  generated_at : String
  sources : List String
deriving Repr, DecidableEq, Inhabited

/-- The assembled draft document. -/
structure Draft where
  meta : DraftMeta
  top_games : List PublishedGame
  quick_opinions : List String
  whats_next : List Matchup
deriving Repr, DecidableEq, Inhabited

/-- `generateDraft`: fetch, abort with exit 1 (`none`) when the fetched list
is empty, otherwise rank, synthesize per-game content (one random draw per
game, supplied by the oracle `rand`), map to the published schema with an
empty team-metadata lookup, and assemble the document (`some draft` models
the document being written). -/
def generateDraft (outcome : FetchOutcome) (rand : Nat → Fin 3)
    (season week : Int) (scope generated_at : String) : Option Draft :=
  let games := fetchGames outcome
  if games.length = 0 then
    none
  else
    let ranked := rankGames games
    let processedGames := ranked.enum.map fun p =>
      mapToSchema (generateRecap p.2 (rand p.1)) (fun _ => none)
    some
      { meta :=
          { season := season
            week := week
            scope := scope
            generated_at := generated_at
            sources := ["cfbd:v1 games/box; rankings/v1"] }
        top_games := processedGames
        quick_opinions := generateOpinions ranked
        whats_next := generateWhatsNext week }

end MinFootball

namespace MinFootball

/-! ## Concrete inputs used by counterexamples and witnesses -/

/-- The scenario game of the spec:
`{home: "A", away: "B", homeScore: 28, awayScore: 24, completed: true, periods: 4, conferenceGame: false}`. -/
def scenarioGame : Game :=
  { id := none
    home_team := "A"
    away_team := "B"
    home_points := JVal.num 28
    away_points := JVal.num 24
    completed := true
    conference_game := false
    periods := JVal.num 4
    home_id := JVal.undef
    away_id := JVal.undef
    tags := none }

/-- A completed game with a tied 21-21 score. -/
def tiedGame : Game :=
  { scenarioGame with home_points := JVal.num 21, away_points := JVal.num 21 }

/-- A completed game with a negative home score. -/
def negScoreGame : Game :=
  { scenarioGame with home_points := JVal.num (-5), away_points := JVal.num 24 }

/-- A completed game whose home score field is absent (`undefined`). -/
def undefScoreGame : Game :=
  { scenarioGame with home_points := JVal.undef }

/-- A game with `completed: false`. -/
def incompleteGame : Game :=
  { scenarioGame with completed := false }

/-! ## Helper lemmas about the stable sort -/

theorem insertDesc_length (x : RankedGame) (l : List RankedGame) :
    (insertDesc x l).length = l.length + 1 := by
  induction l with
  | nil => rfl
  | cons y ys ih =>
    by_cases hy : y.rankScore ≤ x.rankScore
    · simp [insertDesc, hy]
    · simp [insertDesc, hy, ih]

theorem sortDesc_length (l : List RankedGame) :
    (sortDesc l).length = l.length := by
  induction l with
  | nil => rfl
  | cons x xs ih => simp [sortDesc, insertDesc_length, ih]

theorem insertDesc_filter_of_eq (x : RankedGame) (l : List RankedGame) (k : Nat)
    (h : x.rankScore = k) :
    (insertDesc x l).filter (fun g => g.rankScore == k) =
      x :: l.filter (fun g => g.rankScore == k) := by
  induction l with
  | nil => simp [insertDesc, h]
  | cons y ys ih =>
    rw [insertDesc]
    by_cases hy : y.rankScore ≤ x.rankScore
    · rw [if_pos hy]
      simp [List.filter_cons, h]
    · rw [if_neg hy]
      have hyk : ¬ y.rankScore = k := by omega
      simp [List.filter_cons, hyk, ih]

theorem insertDesc_filter_of_ne (x : RankedGame) (l : List RankedGame) (k : Nat)
    (h : ¬ x.rankScore = k) :
    (insertDesc x l).filter (fun g => g.rankScore == k) =
      l.filter (fun g => g.rankScore == k) := by
  induction l with
  | nil => simp [insertDesc, h]
  | cons y ys ih =>
    rw [insertDesc]
    by_cases hy : y.rankScore ≤ x.rankScore
    · rw [if_pos hy]
      simp [List.filter_cons, h]
    · rw [if_neg hy]
      simp [List.filter_cons, ih]

theorem sortDesc_filter (l : List RankedGame) (k : Nat) :
    (sortDesc l).filter (fun g => g.rankScore == k) =
      l.filter (fun g => g.rankScore == k) := by
  induction l with
  | nil => rfl
  | cons x xs ih =>
    by_cases hx : x.rankScore = k
    · rw [sortDesc, insertDesc_filter_of_eq x (sortDesc xs) k hx, ih,
        List.filter_cons]
      simp [hx]
    · rw [sortDesc, insertDesc_filter_of_ne x (sortDesc xs) k hx, ih,
        List.filter_cons]
      simp [hx]

end MinFootball

namespace MinFootball

/-! ## Bonus decomposition of the rank score -/

/-- The close-game bonus ladder: +6 for a differential ≤ 8, a further +4 for
≤ 3, a further +3 for a tie. -/
def closeBonus (d : Nat) : Nat :=
  (if d ≤ 8 then 6 else 0) + (if d ≤ 3 then 4 else 0) + (if d = 0 then 3 else 0)

/-- The shootout bonus ladder: +3 for more than 70 combined points, a further
+2 for more than 80. -/
def shootoutBonus (t : Int) : Nat :=
  (if t > 70 then 3 else 0) + (if t > 80 then 2 else 0)

/-- The conference-game bonus: +1 when the game is a conference game. -/
def conferenceBonus (b : Bool) : Nat := if b then 1 else 0

/-- The overtime bonus: +4 when `periods === 5`, +6 when `periods > 5`. -/
def overtimeBonus (p : JVal) : Nat :=
  (if p.eqNum 5 then 4 else 0) + (if p.gtNum 5 then 6 else 0)

/-- C5: for every record, the rank score is the sum of the four
independently-triggered bonus categories (close / shootout / conference /
overtime) of the record's derived fields; the two overtime bonus conditions
`periods === 5` and `periods > 5` can never hold together, so exactly one
overtime bonus fires; and a tied record's close-related bonus totals
6 + 4 + 3 = 13.  This holds for all records, in particular all eligible
ones. -/
theorem C5_rankScore_decomposition (g : Game) :
    (annotateGame g).rankScore =
      closeBonus (annotateGame g).scoreDiff +
        shootoutBonus (annotateGame g).totalPoints +
        conferenceBonus g.conference_game + overtimeBonus g.periods ∧
    ¬ (g.periods.eqNum 5 = true ∧ g.periods.gtNum 5 = true) ∧
    closeBonus 0 = 13 := by
  refine ⟨?_, ?_, rfl⟩
  · simp only [annotateGame, closeBonus, shootoutBonus, conferenceBonus,
      overtimeBonus]
    omega
  · rintro ⟨h5, hgt⟩
    cases hp : g.periods with
    | undef => rw [hp] at h5; simp [JVal.eqNum] at h5
    | null => rw [hp] at h5; simp [JVal.eqNum] at h5
    | num n =>
      rw [hp] at h5 hgt
      simp only [JVal.eqNum, beq_iff_eq] at h5
      simp only [JVal.gtNum, decide_eq_true_eq] at hgt
      omega

/-- C5 witness: the decomposition instantiated at the tied 21-21 game. -/
theorem C5_witness :
    (annotateGame tiedGame).rankScore =
      closeBonus (annotateGame tiedGame).scoreDiff +
        shootoutBonus (annotateGame tiedGame).totalPoints +
        conferenceBonus tiedGame.conference_game +
        overtimeBonus tiedGame.periods ∧
    ¬ (tiedGame.periods.eqNum 5 = true ∧ tiedGame.periods.gtNum 5 = true) ∧
    closeBonus 0 = 13 :=
  C5_rankScore_decomposition tiedGame

/-- C8: for every input list of game payloads, the length of the ranker's
output is `min 5 (number of eligible records)`. -/
theorem C8_output_length (gs : List Game) :
    (rankGames gs).length = min 5 (rankEligible gs).length := by
  simp [rankGames, List.length_take, sortDesc_length, List.length_map]

/-- C8 witness: on the singleton incomplete-game input, zero records are
eligible and the ranker's output is empty. -/
theorem C8_witness :
    (rankGames [incompleteGame]).length = min 5 (rankEligible [incompleteGame]).length :=
  C8_output_length [incompleteGame]

/-- C6: the ranker's sort is stable: for every score value `k`, the
subsequence of records scoring `k` is unchanged by the sort, and (after the
truncation to 5) the ranker's output restricted to records scoring `k` is a
sublist — hence in the same relative order — of the eligible input
restricted to records scoring `k`. -/
theorem C6_sort_stable (gs : List Game) (k : Nat) :
    (sortDesc ((rankEligible gs).map annotateGame)).filter
        (fun g => g.rankScore == k) =
      ((rankEligible gs).map annotateGame).filter (fun g => g.rankScore == k) ∧
    ((rankGames gs).filter (fun g => g.rankScore == k)).Sublist
      (((rankEligible gs).map annotateGame).filter (fun g => g.rankScore == k)) := by
  refine ⟨sortDesc_filter _ _, ?_⟩
  have h1 : (rankGames gs).Sublist (sortDesc ((rankEligible gs).map annotateGame)) :=
    List.take_sublist _ _
  have h2 := h1.filter (fun g => g.rankScore == k)
  rwa [sortDesc_filter] at h2

/-- C6 witness: stability instantiated at the two-game input
`[tiedGame, scenarioGame]` and score 13. -/
theorem C6_witness :
    (sortDesc ((rankEligible [tiedGame, scenarioGame]).map annotateGame)).filter
        (fun g => g.rankScore == 13) =
      ((rankEligible [tiedGame, scenarioGame]).map annotateGame).filter
        (fun g => g.rankScore == 13) ∧
    ((rankGames [tiedGame, scenarioGame]).filter (fun g => g.rankScore == 13)).Sublist
      (((rankEligible [tiedGame, scenarioGame]).map annotateGame).filter
        (fun g => g.rankScore == 13)) :=
  C6_sort_stable [tiedGame, scenarioGame] 13

end MinFootball

namespace MinFootball

/-- C2 counterexample: the 21-21 tied game has equal scores, yet the ranker
derives `winnerSide = "away"`, not `"home"` as the claim states. -/
theorem C2_counterexample :
    tiedGame.home_points = tiedGame.away_points ∧
    (annotateGame tiedGame).winner = "away" ∧
    ¬ (annotateGame tiedGame).winner = "home" := by
  refine ⟨rfl, rfl, ?_⟩
  decide

/-- C2 amended: for every game record with equal home and away scores, the
derived `winnerSide` computed by the ranker is `"away"` (the ternary
`homeScore > awayScore ? 'home' : 'away'` resolves a tie to the away side). -/
theorem C2_amended (g : Game) (h : g.home_points = g.away_points) :
    (annotateGame g).winner = "away" := by
  simp [annotateGame, h]

/-- C2 witness: the amended statement applied to the tied 21-21 game. -/
theorem C2_witness : (annotateGame tiedGame).winner = "away" :=
  C2_amended tiedGame rfl

/-- C3 counterexample: on the spec's scenario input (28-24, completed,
4 periods, non-conference) the ranker assigns `rankScore = 6`, not 10: the
4-point differential earns only the ≤ 8 bonus, since the +4 bonus requires a
differential ≤ 3. -/
theorem C3_counterexample :
    (annotateGame scenarioGame).rankScore = 6 ∧
    ¬ (annotateGame scenarioGame).rankScore = 10 := by
  decide

/-- C3 amended: on the scenario input, `scoreDifferential = 4` and
`totalPoints = 52` so only the close-game +6 bonus fires and
`rankScore = 6`; the schema mapper renders the `final` field as exactly
`"28–24"` with an en-dash separator. -/
theorem C3_amended :
    (annotateGame scenarioGame).scoreDiff = 4 ∧
    (annotateGame scenarioGame).totalPoints = 52 ∧
    (annotateGame scenarioGame).rankScore = 6 ∧
    (mapToSchema (generateRecap (annotateGame scenarioGame) 0)
        (fun _ => none)).final = "28–24" := by
  refine ⟨by decide, by decide, by decide, rfl⟩

/-- C4 counterexample: a completed game with a negative home score (-5) and a
completed game whose home score field is missing (`undefined`) are both
retained by the eligibility filter, contradicting the claim that negative or
missing scores are excluded. -/
theorem C4_counterexample :
    negScoreGame.home_points = JVal.num (-5) ∧
    undefScoreGame.home_points = JVal.undef ∧
    rankEligible [negScoreGame, undefScoreGame] = [negScoreGame, undefScoreGame] := by
  refine ⟨rfl, rfl, rfl⟩

/-- C4 amended: the eligibility filter admits exactly the records with
`completed` true and both score fields strictly different from `null`
(JS `!== null`); it checks neither presence (an `undefined` score passes)
nor non-negativity (a negative score passes). -/
theorem C4_amended (g : Game) (l : List Game) :
    g ∈ rankEligible l ↔
      g ∈ l ∧ g.completed = true ∧
        g.home_points ≠ JVal.null ∧ g.away_points ≠ JVal.null := by
  simp only [rankEligible, List.mem_filter, Bool.and_eq_true, bne_iff_ne,
    ne_eq, and_assoc]

/-- C4 witness: the amended characterization applied to the negative-score
game, which is therefore a member of the filter's output. -/
theorem C4_witness : negScoreGame ∈ rankEligible [negScoreGame] :=
  (C4_amended negScoreGame [negScoreGame]).mpr
    ⟨by decide, rfl, by decide, by decide⟩

end MinFootball

namespace MinFootball

/-- C7: the schema mapper's fallbacks: with no lookup entry for a team, the
published abbreviation is the uppercased first 4 characters of the team name
and the logo is the empty string; the `final` field is always
`"<home_points>–<away_points>"` with an en-dash separator; a missing
(`undefined`) `home_id` or `away_id` defaults to 0, and a missing `id`
defaults to the empty string. -/
theorem C7_mapper_fallbacks (g : RecapGame) (teamData : String → Option TeamMeta) :
    (teamData g.ranked.game.home_team = none →
      (mapToSchema g teamData).home.abbr = upper4 g.ranked.game.home_team ∧
      (mapToSchema g teamData).home.logo = "") ∧
    (teamData g.ranked.game.away_team = none →
      (mapToSchema g teamData).away.abbr = upper4 g.ranked.game.away_team ∧
      (mapToSchema g teamData).away.logo = "") ∧
    (mapToSchema g teamData).final =
      g.ranked.game.home_points.render ++ "–" ++ g.ranked.game.away_points.render ∧
    (g.ranked.game.home_id = JVal.undef → (mapToSchema g teamData).ids.home_id = 0) ∧
    (g.ranked.game.away_id = JVal.undef → (mapToSchema g teamData).ids.away_id = 0) ∧
    (g.ranked.game.id = none → (mapToSchema g teamData).ids.game_id = "") := by
  refine ⟨fun h => ?_, fun h => ?_, rfl, fun h => ?_, fun h => ?_, fun h => ?_⟩ <;>
    simp [mapToSchema, metaField, h, JVal.orZero]

/-- The scenario game relocated to Fresno State, synthesized with template
index 0: a concrete mapper input whose team has no lookup entry. -/
def fresnoRecap : RecapGame :=
  generateRecap (annotateGame { scenarioGame with home_team := "Fresno State" }) 0

/-- C7 witness: with the empty lookup, "Fresno State" falls back to the
abbreviation "FRES" and empty logo, the final renders "28–24", and the
missing identifiers default to 0 and the empty string. -/
theorem C7_witness :
    (mapToSchema fresnoRecap (fun _ => none)).home.abbr = "FRES" ∧
    (mapToSchema fresnoRecap (fun _ => none)).home.logo = "" ∧
    (mapToSchema fresnoRecap (fun _ => none)).final = "28–24" ∧
    (mapToSchema fresnoRecap (fun _ => none)).ids.home_id = 0 ∧
    (mapToSchema fresnoRecap (fun _ => none)).ids.game_id = "" := by
  obtain ⟨h1, _, h3, h4, _, h6⟩ := C7_mapper_fallbacks fresnoRecap (fun _ => none)
  refine ⟨?_, (h1 rfl).2, h3, h4 rfl, h6 rfl⟩
  rw [(h1 rfl).1]
  decide

/-- C9: every failed upstream fetch (missing credential, transport error, or
non-OK response) makes `fetchGames` return the fixed single-record stub
dataset, and the run still produces a document (`isSome`): an upstream fetch
failure is never fatal. -/
theorem C9_fetch_failure_never_fatal (o : FetchOutcome) (r : Nat → Fin 3)
    (s w : Int) (sc t : String) (h : o.isFailure = true) :
    fetchGames o = getStubGames ∧
    (generateDraft o r s w sc t).isSome = true := by
  cases o with
  | ok gs => simp [FetchOutcome.isFailure] at h
  | noApiKey => exact ⟨rfl, rfl⟩
  | transportError => exact ⟨rfl, rfl⟩
  | httpNotOk n => exact ⟨rfl, rfl⟩

/-- C9 witness: the missing-credential outcome falls back to the stub and a
document is produced. -/
theorem C9_witness :
    fetchGames FetchOutcome.noApiKey = getStubGames ∧
    (generateDraft FetchOutcome.noApiKey (fun _ => 0) 2025 1 "cfb"
        "2025-01-01T00:00:00.000Z").isSome = true :=
  C9_fetch_failure_never_fatal FetchOutcome.noApiKey (fun _ => 0) 2025 1 "cfb"
    "2025-01-01T00:00:00.000Z" rfl

end MinFootball

namespace MinFootball

/-- C10: `generateDraft` invokes the schema mapper with the empty
team-metadata lookup (`{}`), so in every produced document every published
game's home and away abbreviation is the uppercased first 4 characters of
the corresponding team name and its logo is the empty string. -/
theorem C10_empty_lookup_fallbacks (o : FetchOutcome) (r : Nat → Fin 3)
    (s w : Int) (sc t : String) (d : Draft)
    (hd : generateDraft o r s w sc t = some d)
    (pg : PublishedGame) (hpg : pg ∈ d.top_games) :
    pg.home.abbr = upper4 pg.home.name ∧ pg.home.logo = "" ∧
    pg.away.abbr = upper4 pg.away.name ∧ pg.away.logo = "" := by
  simp only [generateDraft] at hd
  by_cases hlen : (fetchGames o).length = 0
  · rw [if_pos hlen] at hd
    exact absurd hd (by simp)
  · rw [if_neg hlen] at hd
    injection hd with h
    subst h
    dsimp only at hpg
    obtain ⟨p, hp, rfl⟩ := List.mem_map.mp hpg
    simp [mapToSchema, metaField]

/-- The document the pipeline produces from the stub dataset (template
index 0 for every game). -/
def stubDraft : Draft :=
  (generateDraft FetchOutcome.noApiKey (fun _ => 0) 2025 1 "cfb" "t0").getD default

/-- The single published game of `stubDraft`. -/
def stubPublished : PublishedGame := stubDraft.top_games.getD 0 default

/-- C10 witness: the fallback abbreviation/logo property of the one
published game of the stub-based document. -/
theorem C10_witness :
    stubPublished.home.abbr = upper4 stubPublished.home.name ∧
    stubPublished.home.logo = "" ∧
    stubPublished.away.abbr = upper4 stubPublished.away.name ∧
    stubPublished.away.logo = "" :=
  C10_empty_lookup_fallbacks FetchOutcome.noApiKey (fun _ => 0) 2025 1 "cfb" "t0"
    stubDraft (by decide) stubPublished (by decide)

/-- C1 counterexample: on the single-payload input `[incompleteGame]`
(a game with `completed: false`) the eligible subset is empty, yet the
generator still produces an output document — it does not abort. -/
theorem C1_counterexample :
    rankEligible [incompleteGame] = [] ∧
    (generateDraft (FetchOutcome.ok [incompleteGame]) (fun _ => 0) 2025 1 "cfb"
        "t1").isSome = true :=
  ⟨rfl, rfl⟩

/-- C1 amended: the run aborts (`none`, exit 1) only when the fetched list
itself is empty; whenever the fetched list is non-empty but its eligible
subset is empty, a document is still produced, with an empty `top_games`
list. -/
theorem C1_amended (o : FetchOutcome) (r : Nat → Fin 3) (s w : Int)
    (sc t : String) (hne : fetchGames o ≠ [])
    (helig : rankEligible (fetchGames o) = []) :
    (generateDraft o r s w sc t).isSome = true ∧
    (generateDraft o r s w sc t).map Draft.top_games = some [] := by
  have hlen : ¬ (fetchGames o).length = 0 := by
    simpa [List.length_eq_zero] using hne
  simp only [generateDraft]
  rw [if_neg hlen]
  refine ⟨rfl, ?_⟩
  simp [rankGames, helig, sortDesc]

/-- C1 witness: the amended statement at the concrete single-ineligible-game
input. -/
theorem C1_witness :
    (generateDraft (FetchOutcome.ok [incompleteGame]) (fun _ => 0) 2025 1 "cfb"
        "t2").isSome = true ∧
    (generateDraft (FetchOutcome.ok [incompleteGame]) (fun _ => 0) 2025 1 "cfb"
        "t2").map Draft.top_games = some [] :=
  C1_amended (FetchOutcome.ok [incompleteGame]) (fun _ => 0) 2025 1 "cfb" "t2"
    (by decide) (by decide)

end MinFootball
